import Mathlib

/-
Verification of the relation-resolver generator of nestjs-query
(ReadRelationsResolver) against its natural-language specification.
The repository fragment under test ships the unit tests of the generator;
the generator itself is modelled here from the specification text
(sections 3, 4.1, 4.2 and 6 of spec.md).
-/

set_option maxRecDepth 4000

/-- Resolver method hook options (disabled, filters, guards, interceptors,
pipes) carried by a relation entry and forwarded to the field-accessor
registration call. Hooks are modelled by name lists. -/
structure ResolverOpts where
  disabled : Option Bool := none
  filters : Option (List String) := none
  guards : Option (List String) := none
  interceptors : Option (List String) := none
  pipes : Option (List String) := none
deriving DecidableEq

/-- Modelled from the spec: the Relation Descriptor entry (section 3), for
the generator whose implementation file is absent from the fragment. It
identifies a related DTO type (by its object type name), an optional display
name override, an optional underlying relation-name override, a nullability
flag, a disable flag, and the hook options. -/
structure RelationEntry where
  DTO : String
  dtoName : Option String := none
  relationName : Option String := none
  nullable : Bool := false
  disableRead : Bool := false
  opts : ResolverOpts := {}
deriving DecidableEq

/-- Relations descriptor: separate one and many maps, keyed by field name. -/
structure RelationsDescriptor where
  one : List (String × RelationEntry) := []
  many : List (String × RelationEntry) := []
deriving DecidableEq

/-- GraphQL type values produced by the type builders. -/
inductive GqlType where
  | dto (name : String)
  | conn (name : String)
  | args (name : String)
deriving DecidableEq

/-- Modelled from the spec: the connection type builder collaborator, which
produces the paginated result type for a related DTO (section 6). -/
def ConnectionType (dtoTypeName : String) : GqlType := GqlType.conn dtoTypeName

/-- Modelled from the spec: the query argument type builder collaborator,
which produces the filter-and-page argument type for a related DTO. -/
def QueryArgsType (dtoTypeName : String) : GqlType := GqlType.args dtoTypeName

/-- Advanced field options passed to the field-accessor registration call;
an empty object is modelled by nullable set to none. -/
structure AdvancedOptions where
  nullable : Option Bool := none
deriving DecidableEq

/-- One recorded call of the ResolverProperty registration decorator:
property name, return type, advanced options and the forwarded hooks. -/
structure RPCall where
  propName : String
  returnType : GqlType
  advancedOpts : AdvancedOptions
  methodOpts : ResolverOpts
deriving DecidableEq

/-- Trace of the side-effect calls made while building a resolver class:
the arguments of every QueryArgsType, ConnectionType and ResolverProperty
call, and the number of Parent and Args binding calls. -/
structure BuildTrace where
  queryArgsTypeCalls : List String := []
  connectionTypeCalls : List String := []
  resolverPropertyCalls : List RPCall := []
  parentCalls : Nat := 0
  argsCalls : Nat := 0
deriving DecidableEq

/-- A generated single-relation accessor method: its method name and the
underlying relation name it passes to the query service. -/
structure GeneratedOne where
  methodName : String
  relationName : String
deriving DecidableEq

/-- A generated multi-relation accessor method: its method name and the
underlying relation name it passes to the query service. -/
structure GeneratedMany where
  methodName : String
  relationName : String
deriving DecidableEq

/-- Result of running the resolver factory: the side-effect trace and the
generated accessor methods. -/
structure ResolverBuild where
  trace : BuildTrace
  oneMethods : List GeneratedOne
  manyMethods : List GeneratedMany
deriving DecidableEq

/-- Lower-case an ASCII letter. -/
def lowerChar (c : Char) : Char :=
  if c.isUpper then Char.ofNat (c.toNat + 32) else c

/-- Upper-case an ASCII letter. -/
def upperChar (c : Char) : Char :=
  if c.isLower then Char.ofNat (c.toNat - 32) else c

/-- Lower-case the first character of a string. -/
def lowerFirst (s : String) : String :=
  match s.toList with
  | [] => s
  | c :: cs => String.mk (lowerChar c :: cs)

/-- Upper-case the first character of a string. -/
def upperFirst (s : String) : String :=
  match s.toList with
  | [] => s
  | c :: cs => String.mk (upperChar c :: cs)

/-- English pluralization as exercised by the tests: a word already ending
in the letter s is left unchanged, otherwise the letter s is appended. -/
def pluralize (s : String) : String :=
  if s.toList.getLast? = some 's' then s else s ++ "s"

/-- Modelled from the spec: the base display name of a relation entry is
the dtoName override if given, else the map key (section 4.1). -/
def baseNameOf (key : String) (e : RelationEntry) : String :=
  e.dtoName.getD key

/-- Exposed field name of a one relation entry. -/
def oneFieldName (key : String) (e : RelationEntry) : String :=
  lowerFirst (baseNameOf key e)

/-- Generated method name of a one relation entry. -/
def oneMethodName (key : String) (e : RelationEntry) : String :=
  "find" ++ upperFirst (baseNameOf key e)

/-- Underlying relation name used by a one accessor: the relationName
override if given, else the field name. -/
def oneRelationName (key : String) (e : RelationEntry) : String :=
  e.relationName.getD (oneFieldName key e)

/-- Exposed field name of a many relation entry: the pluralized
lower-camel-cased base name. -/
def manyFieldName (key : String) (e : RelationEntry) : String :=
  pluralize (lowerFirst (baseNameOf key e))

/-- Generated method name of a many relation entry. -/
def manyMethodName (key : String) (e : RelationEntry) : String :=
  "query" ++ pluralize (upperFirst (baseNameOf key e))

/-- Underlying relation name used by a many accessor: the relationName
override if given, else the pluralized field name. -/
def manyRelationName (key : String) (e : RelationEntry) : String :=
  e.relationName.getD (manyFieldName key e)

/-- Generated one accessor record for an entry. -/
def oneMethodOf (key : String) (e : RelationEntry) : GeneratedOne :=
  ⟨oneMethodName key e, oneRelationName key e⟩

/-- Generated many accessor record for an entry. -/
def manyMethodOf (key : String) (e : RelationEntry) : GeneratedMany :=
  ⟨manyMethodName key e, manyRelationName key e⟩

/-- Advanced options derived from an entry: nullable true when the entry is
marked nullable, else the empty object. -/
def advancedOptsOf (e : RelationEntry) : AdvancedOptions :=
  ⟨if e.nullable then some true else none⟩

/-- Resolver build with no side effects and no generated methods. -/
def emptyBuild : ResolverBuild :=
  ⟨{ queryArgsTypeCalls := [], connectionTypeCalls := [],
     resolverPropertyCalls := [], parentCalls := 0, argsCalls := 0 }, [], []⟩

/-- Modelled from the spec: building one entry of the one map (section 4.1).
A disabled entry produces no side effects at all; otherwise exactly one
field accessor is registered, returning the related DTO type, with one
Parent binding and no Args binding, and no type builders are invoked. -/
def buildOneEntry (key : String) (e : RelationEntry) : ResolverBuild :=
  if e.disableRead then emptyBuild
  else
    { trace :=
        { queryArgsTypeCalls := []
          connectionTypeCalls := []
          resolverPropertyCalls :=
            [⟨oneFieldName key e, GqlType.dto e.DTO, advancedOptsOf e, e.opts⟩]
          parentCalls := 1
          argsCalls := 0 }
      oneMethods := [oneMethodOf key e]
      manyMethods := [] }

/-- Modelled from the spec: building one entry of the many map
(section 4.1). A disabled entry produces no side effects at all; otherwise
the query argument type and connection type builders are each invoked once
with the related DTO, and exactly one field accessor is registered,
returning the connection type, with one Parent and one Args binding. -/
def buildManyEntry (key : String) (e : RelationEntry) : ResolverBuild :=
  if e.disableRead then emptyBuild
  else
    { trace :=
        { queryArgsTypeCalls := [e.DTO]
          connectionTypeCalls := [e.DTO]
          resolverPropertyCalls :=
            [⟨manyFieldName key e, ConnectionType e.DTO, advancedOptsOf e, e.opts⟩]
          parentCalls := 1
          argsCalls := 1 }
      oneMethods := []
      manyMethods := [manyMethodOf key e] }

/-- Combine two resolver builds, concatenating traces and method lists. -/
def combineBuild (b1 b2 : ResolverBuild) : ResolverBuild :=
  ⟨{ queryArgsTypeCalls := b1.trace.queryArgsTypeCalls ++ b2.trace.queryArgsTypeCalls
     connectionTypeCalls := b1.trace.connectionTypeCalls ++ b2.trace.connectionTypeCalls
     resolverPropertyCalls := b1.trace.resolverPropertyCalls ++ b2.trace.resolverPropertyCalls
     parentCalls := b1.trace.parentCalls + b2.trace.parentCalls
     argsCalls := b1.trace.argsCalls + b2.trace.argsCalls },
   b1.oneMethods ++ b2.oneMethods,
   b1.manyMethods ++ b2.manyMethods⟩

/-- Modelled from the spec: the resolver factory ReadRelationsResolver,
whose implementation file is absent from the fragment. Given a relations
descriptor it processes every one entry and every many entry in order and
returns the accumulated side-effect trace and generated methods. -/
def ReadRelationsResolver (d : RelationsDescriptor) : ResolverBuild :=
  (d.one.map (fun p => buildOneEntry p.1 p.2)).foldr combineBuild
    ((d.many.map (fun p => buildManyEntry p.1 p.2)).foldr combineBuild emptyBuild)

/-- Query service collaborator over parent, relation record and query
types: a single-relation lookup and a multi-relation lookup. -/
structure QueryServiceM (P R Q : Type) where
  findRelation : P → String → Option R
  queryRelations : P → String → Q → List R

/-- Modelled from the spec: behaviour of a generated one accessor
(section 4.1): it calls the single-relation lookup of the query service
with the parent and the underlying relation name and returns the result
directly. -/
def findAccessor {P R Q : Type} (g : GeneratedOne) (svc : QueryServiceM P R Q)
    (parent : P) : Option R :=
  svc.findRelation parent g.relationName

/-- Base64 alphabet. -/
def base64Alphabet : List Char :=
  "ABCDEFGHIJKLMNOPQRSTUVWXYZabcdefghijklmnopqrstuvwxyz0123456789+/".toList

/-- Character of a 6-bit value in the base64 alphabet. -/
def b64char (n : Nat) : Char := base64Alphabet.getD n 'A'

/-- Base64 encoding of a byte list, with padding. -/
def base64Chunks : List Nat → List Char
  | [] => []
  | [a] => [b64char (a / 4), b64char (a % 4 * 16), '=', '=']
  | [a, b] => [b64char (a / 4), b64char (a % 4 * 16 + b / 16), b64char (b % 16 * 4), '=']
  | a :: b :: c :: rest =>
      b64char (a / 4) :: b64char (a % 4 * 16 + b / 16) ::
        b64char (b % 16 * 4 + c / 64) :: b64char (c % 64) :: base64Chunks rest

/-- Base64 encoding of an ASCII string. -/
def base64Encode (s : String) : String :=
  String.mk (base64Chunks (s.toList.map Char.toNat))

/-- Modelled from the spec: the opaque offset cursor of the connection
builder, the base64 encoding of the literal arrayconnection:index
(section 4.2). -/
def offsetToCursor (offset : Nat) : String :=
  base64Encode ("arrayconnection:" ++ toString offset)

/-- One edge of a connection. -/
structure Edge (R : Type) where
  cursor : String
  node : R
deriving DecidableEq

/-- Page info of a connection. -/
structure PageInfo where
  startCursor : Option String
  endCursor : Option String
  hasNextPage : Bool
  hasPreviousPage : Bool
deriving DecidableEq

/-- Cursor-paginated connection envelope. -/
structure Connection (R : Type) where
  edges : List (Edge R)
  pageInfo : PageInfo
deriving DecidableEq

/-- Edges of a record list starting at a given offset. -/
def edgesFrom {R : Type} (i : Nat) : List R → List (Edge R)
  | [] => []
  | r :: rs => ⟨offsetToCursor i, r⟩ :: edgesFrom (i + 1) rs

/-- Modelled from the spec: the connection builder (section 4.2). One edge
per record in input order with offset cursors; start and end cursor are the
first and last edge cursors (absent on empty input); both page flags are
false in the in-scope usage. -/
def connectionFromArray {R : Type} (records : List R) : Connection R :=
  let edges := edgesFrom 0 records
  { edges := edges
    pageInfo :=
      { startCursor := edges.head?.map Edge.cursor
        endCursor := edges.getLast?.map Edge.cursor
        hasNextPage := false
        hasPreviousPage := false } }

/-- Modelled from the spec: behaviour of a generated many accessor
(section 4.1): it calls the multi-relation lookup of the query service with
the parent, the underlying relation name and the query argument object,
and shapes the returned array through the connection builder. -/
def queryAccessor {P R Q : Type} (g : GeneratedMany) (svc : QueryServiceM P R Q)
    (parent : P) (q : Q) : Connection R :=
  connectionFromArray (svc.queryRelations parent g.relationName q)

/-- Parent DTO shape used by the tests. -/
structure ReadRelationDTO where
  id : String
  stringField : String
deriving DecidableEq

/-- Related DTO shape used by the tests. -/
structure RelationDTO where
  id : String
  readRelationId : String
deriving DecidableEq

/-- Equality filter on an id field. -/
structure IdFilter where
  eq : String
deriving DecidableEq

/-- Filter object of the test query. -/
structure RelationFilter where
  id : IdFilter
deriving DecidableEq

/-- Query argument object of the test query. -/
structure RelationQuery where
  filter : RelationFilter
deriving DecidableEq

/-- Parent instance of the tests. -/
def parentDto : ReadRelationDTO := ⟨"id-1", "foo"⟩

/-- Related record returned by the stubbed service. -/
def relationOut : RelationDTO := ⟨"id-2", "id-1"⟩

/-- Query argument object of the many test. -/
def testQuery : RelationQuery := ⟨⟨⟨"id-2"⟩⟩⟩

/-- Descriptor of the many connection test: many map with key relation. -/
def descMany : RelationsDescriptor :=
  { one := [], many := [("relation", { DTO := "Relation" })] }

/-- Descriptor of the one test: one map with key relation. -/
def descOne : RelationsDescriptor :=
  { one := [("relation", { DTO := "Relation" })], many := [] }

/-- Concrete service stub for the many connection test: queryRelations
resolves to the single related record exactly for the test arguments. -/
def svcC1 : QueryServiceM ReadRelationDTO RelationDTO RelationQuery where
  findRelation := fun _ _ => none
  queryRelations := fun p n q =>
    if p = parentDto ∧ n = "relations" ∧ q = testQuery then [relationOut] else []

/-- Concrete service stub for the one test: findRelation resolves to the
related record exactly for the test arguments. -/
def svcC2 : QueryServiceM ReadRelationDTO RelationDTO RelationQuery where
  findRelation := fun p n =>
    if p = parentDto ∧ n = "relation" then some relationOut else none
  queryRelations := fun _ _ _ => []

/-- Concrete service stub answering only for the relation name tests:
it resolves records only when called with name tests. -/
def svcC10 : QueryServiceM ReadRelationDTO RelationDTO RelationQuery where
  findRelation := fun _ _ => none
  queryRelations := fun _ n _ => if n = "tests" then [relationOut] else []

/-- Trivial service over unit types, used to instantiate general claims. -/
def svcTriv : QueryServiceM Unit Unit Unit where
  findRelation := fun _ _ => none
  queryRelations := fun _ _ _ => []

/-- Relation entry with a relationName override to other. -/
def entryOther : RelationEntry := { DTO := "Relation", relationName := some "other" }

/-- Relation entry with a dtoName override to Test. -/
def entryTest : RelationEntry := { DTO := "Relation", dtoName := some "Test" }

/-- Plain relation entry without overrides. -/
def entryPlain : RelationEntry := { DTO := "Relation" }

/-- Disabled relation entry. -/
def entryDisabled : RelationEntry := { DTO := "Relation", disableRead := true }

/-- Nullable relation entry. -/
def entryNullable : RelationEntry := { DTO := "Relation", nullable := true }

/-- Hook options exercised by the tests: disabled false, empty filter,
interceptor and pipe lists, one guard. -/
def hookOpts : ResolverOpts :=
  { disabled := some false, filters := some [], guards := some ["FakeCanActivate"],
    interceptors := some [], pipes := some [] }

/-- Relation entry carrying the hook options. -/
def entryHooks : RelationEntry := { DTO := "Relation", opts := hookOpts }

/-- Claim C1: for a many relation built from the descriptor with key
relation, given the test parent and any query service resolving
queryRelations at the parent, name relations and the test query to the
one-element record list, the generated many accessor returns a connection
with exactly one edge whose cursor is the base64 encoding of
arrayconnection:0 and whose node is that record, and page info with start
and end cursor equal to that cursor and both page flags false. -/
theorem c1_many_connection (svc : QueryServiceM ReadRelationDTO RelationDTO RelationQuery)
    (h : svc.queryRelations parentDto "relations" testQuery = [relationOut]) :
    (ReadRelationsResolver descMany).manyMethods.map
        (fun g => queryAccessor g svc parentDto testQuery)
      = [{ edges := [{ cursor := "YXJyYXljb25uZWN0aW9uOjA=", node := relationOut }],
           pageInfo := { startCursor := some "YXJyYXljb25uZWN0aW9uOjA=",
                         endCursor := some "YXJyYXljb25uZWN0aW9uOjA=",
                         hasNextPage := false,
                         hasPreviousPage := false } }] := by
  have hm : (ReadRelationsResolver descMany).manyMethods
      = [⟨"queryRelations", "relations"⟩] := rfl
  have ha : queryAccessor (⟨"queryRelations", "relations"⟩ : GeneratedMany) svc parentDto testQuery
      = connectionFromArray (svc.queryRelations parentDto "relations" testQuery) := rfl
  rw [hm]
  simp only [List.map, ha, h]
  decide

/-- Witness for claim C1 at the concrete stub service. -/
theorem c1_many_connection_witness :
    svcC1.queryRelations parentDto "relations" testQuery = [relationOut] ∧
    (ReadRelationsResolver descMany).manyMethods.map
        (fun g => queryAccessor g svcC1 parentDto testQuery)
      = [{ edges := [{ cursor := "YXJyYXljb25uZWN0aW9uOjA=", node := relationOut }],
           pageInfo := { startCursor := some "YXJyYXljb25uZWN0aW9uOjA=",
                         endCursor := some "YXJyYXljb25uZWN0aW9uOjA=",
                         hasNextPage := false,
                         hasPreviousPage := false } }] :=
  ⟨by decide, c1_many_connection svcC1 (by decide)⟩

/-- Claim C2: for a one relation built from the descriptor with key
relation, given the test parent and any query service resolving
findRelation at the parent and name relation to the related record, the
generated one accessor returns exactly that record, unchanged. -/
theorem c2_one_passthrough (svc : QueryServiceM ReadRelationDTO RelationDTO RelationQuery)
    (h : svc.findRelation parentDto "relation" = some relationOut) :
    (ReadRelationsResolver descOne).oneMethods.map
        (fun g => findAccessor g svc parentDto)
      = [some relationOut] := by
  have hm : (ReadRelationsResolver descOne).oneMethods
      = [⟨"findRelation", "relation"⟩] := rfl
  have ha : findAccessor (⟨"findRelation", "relation"⟩ : GeneratedOne) svc parentDto
      = svc.findRelation parentDto "relation" := rfl
  rw [hm]
  simp only [List.map, ha, h]

/-- Witness for claim C2 at the concrete stub service. -/
theorem c2_one_passthrough_witness :
    svcC2.findRelation parentDto "relation" = some relationOut ∧
    (ReadRelationsResolver descOne).oneMethods.map
        (fun g => findAccessor g svcC2 parentDto)
      = [some relationOut] :=
  ⟨by decide, c2_one_passthrough svcC2 (by decide)⟩

/-- Claim C3: for every relation entry carrying a relationName override to
other, the generated one accessor calls the service findRelation with
other and the generated many accessor calls queryRelations with other,
while the exposed field names are unchanged when the override is erased,
being derived from the map key or dtoName only. -/
theorem c3_relation_name_override {P R Q : Type} (key : String) (e : RelationEntry)
    (h : e.relationName = some "other")
    (svc : QueryServiceM P R Q) (p : P) (q : Q) :
    findAccessor (oneMethodOf key e) svc p = svc.findRelation p "other" ∧
    queryAccessor (manyMethodOf key e) svc p q
        = connectionFromArray (svc.queryRelations p "other" q) ∧
    oneFieldName key e = oneFieldName key { e with relationName := none } ∧
    manyFieldName key e = manyFieldName key { e with relationName := none } := by
  have h1 : (oneMethodOf key e).relationName = "other" := by
    simp [oneMethodOf, oneRelationName, h]
  have h2 : (manyMethodOf key e).relationName = "other" := by
    simp [manyMethodOf, manyRelationName, h]
  refine ⟨?_, ?_, rfl, rfl⟩
  · unfold findAccessor
    rw [h1]
  · unfold queryAccessor
    rw [h2]

/-- Witness for claim C3 at a concrete entry and the trivial service. -/
theorem c3_relation_name_override_witness :
    entryOther.relationName = some "other" ∧
    (findAccessor (oneMethodOf "relation" entryOther) svcTriv () = svcTriv.findRelation () "other" ∧
     queryAccessor (manyMethodOf "relation" entryOther) svcTriv () ()
         = connectionFromArray (svcTriv.queryRelations () "other" ()) ∧
     oneFieldName "relation" entryOther
         = oneFieldName "relation" { entryOther with relationName := none } ∧
     manyFieldName "relation" entryOther
         = manyFieldName "relation" { entryOther with relationName := none }) :=
  ⟨rfl, c3_relation_name_override "relation" entryOther rfl svcTriv () ()⟩

/-- Claim C4: for every non-disabled entry of the one map exactly one
ResolverProperty call is made, with return type the related DTO type and
name the lower-cased dtoName if given else the map key, and no query
argument type or connection type construction occurs; method names follow
the find prefix, as in findTest for dtoName Test. -/
theorem c4_one_registration (key : String) (e : RelationEntry) (h : e.disableRead = false) :
    (buildOneEntry key e).trace.resolverPropertyCalls
        = [⟨lowerFirst (e.dtoName.getD key), GqlType.dto e.DTO, advancedOptsOf e, e.opts⟩] ∧
    (buildOneEntry key e).trace.queryArgsTypeCalls = [] ∧
    (buildOneEntry key e).trace.connectionTypeCalls = [] ∧
    oneMethodName key e = "find" ++ upperFirst (e.dtoName.getD key) ∧
    oneFieldName "relation" entryPlain = "relation" ∧
    oneFieldName "relation" entryTest = "test" ∧
    oneMethodName "relation" entryTest = "findTest" := by
  refine ⟨?_, ?_, ?_, rfl, by decide, by decide, by decide⟩ <;>
    simp [buildOneEntry, h, oneFieldName, baseNameOf]

/-- Witness for claim C4 at the concrete entry with dtoName Test. -/
theorem c4_one_registration_witness :
    entryTest.disableRead = false ∧
    ((buildOneEntry "relation" entryTest).trace.resolverPropertyCalls
        = [⟨lowerFirst (entryTest.dtoName.getD "relation"), GqlType.dto entryTest.DTO,
            advancedOptsOf entryTest, entryTest.opts⟩] ∧
     (buildOneEntry "relation" entryTest).trace.queryArgsTypeCalls = [] ∧
     (buildOneEntry "relation" entryTest).trace.connectionTypeCalls = [] ∧
     oneMethodName "relation" entryTest
         = "find" ++ upperFirst (entryTest.dtoName.getD "relation") ∧
     oneFieldName "relation" entryPlain = "relation" ∧
     oneFieldName "relation" entryTest = "test" ∧
     oneMethodName "relation" entryTest = "findTest") :=
  ⟨rfl, c4_one_registration "relation" entryTest rfl⟩

/-- Claim C5: for every non-disabled entry of the many map exactly one
ResolverProperty call is made, with return type the value of ConnectionType
at the related DTO, the query argument type and connection type builders
are each invoked exactly once with the related DTO, and there is exactly
one Args binding and one Parent binding. -/
theorem c5_many_registration (key : String) (e : RelationEntry) (h : e.disableRead = false) :
    (buildManyEntry key e).trace.resolverPropertyCalls
        = [⟨manyFieldName key e, ConnectionType e.DTO, advancedOptsOf e, e.opts⟩] ∧
    (buildManyEntry key e).trace.queryArgsTypeCalls = [e.DTO] ∧
    (buildManyEntry key e).trace.connectionTypeCalls = [e.DTO] ∧
    (buildManyEntry key e).trace.argsCalls = 1 ∧
    (buildManyEntry key e).trace.parentCalls = 1 := by
  simp [buildManyEntry, h]

/-- Witness for claim C5 at the plain concrete entry. -/
theorem c5_many_registration_witness :
    entryPlain.disableRead = false ∧
    ((buildManyEntry "relation" entryPlain).trace.resolverPropertyCalls
        = [⟨manyFieldName "relation" entryPlain, ConnectionType entryPlain.DTO,
            advancedOptsOf entryPlain, entryPlain.opts⟩] ∧
     (buildManyEntry "relation" entryPlain).trace.queryArgsTypeCalls = [entryPlain.DTO] ∧
     (buildManyEntry "relation" entryPlain).trace.connectionTypeCalls = [entryPlain.DTO] ∧
     (buildManyEntry "relation" entryPlain).trace.argsCalls = 1 ∧
     (buildManyEntry "relation" entryPlain).trace.parentCalls = 1) :=
  ⟨rfl, c5_many_registration "relation" entryPlain rfl⟩

/-- Claim C6: an empty relations descriptor produces no side-effect calls
at all, and a disabled entry produces none either: no QueryArgsType,
ConnectionType or ResolverProperty calls, no Parent or Args bindings, and
no generated methods, both per entry and for a whole build of disabled
entries. -/
theorem c6_no_side_effects (key : String) (e : RelationEntry) (h : e.disableRead = true) :
    ReadRelationsResolver { one := [], many := [] } = emptyBuild ∧
    buildOneEntry key e = emptyBuild ∧
    buildManyEntry key e = emptyBuild ∧
    ReadRelationsResolver { one := [(key, e)], many := [(key, e)] } = emptyBuild ∧
    emptyBuild.trace.queryArgsTypeCalls = [] ∧
    emptyBuild.trace.connectionTypeCalls = [] ∧
    emptyBuild.trace.resolverPropertyCalls = [] ∧
    emptyBuild.trace.parentCalls = 0 ∧
    emptyBuild.trace.argsCalls = 0 ∧
    emptyBuild.oneMethods = [] ∧
    emptyBuild.manyMethods = [] := by
  have h1 : buildOneEntry key e = emptyBuild := by simp [buildOneEntry, h]
  have h2 : buildManyEntry key e = emptyBuild := by simp [buildManyEntry, h]
  have h3 : ReadRelationsResolver { one := [(key, e)], many := [(key, e)] }
      = combineBuild (buildOneEntry key e) (combineBuild (buildManyEntry key e) emptyBuild) := rfl
  refine ⟨rfl, h1, h2, ?_, rfl, rfl, rfl, rfl, rfl, rfl, rfl⟩
  rw [h3, h1, h2]
  decide

/-- Witness for claim C6 at the concrete disabled entry. -/
theorem c6_no_side_effects_witness :
    entryDisabled.disableRead = true ∧
    (ReadRelationsResolver { one := [], many := [] } = emptyBuild ∧
     buildOneEntry "relation" entryDisabled = emptyBuild ∧
     buildManyEntry "relation" entryDisabled = emptyBuild ∧
     ReadRelationsResolver
         { one := [("relation", entryDisabled)], many := [("relation", entryDisabled)] }
       = emptyBuild ∧
     emptyBuild.trace.queryArgsTypeCalls = [] ∧
     emptyBuild.trace.connectionTypeCalls = [] ∧
     emptyBuild.trace.resolverPropertyCalls = [] ∧
     emptyBuild.trace.parentCalls = 0 ∧
     emptyBuild.trace.argsCalls = 0 ∧
     emptyBuild.oneMethods = [] ∧
     emptyBuild.manyMethods = []) :=
  ⟨rfl, c6_no_side_effects "relation" entryDisabled rfl⟩

/-- Claim C7: for every non-disabled entry, of the one map and of the many
map alike, the hook options of the entry are forwarded verbatim as the
method options of the single ResolverProperty call. -/
theorem c7_hooks_forwarded (key : String) (e : RelationEntry) (h : e.disableRead = false) :
    (buildOneEntry key e).trace.resolverPropertyCalls.map RPCall.methodOpts = [e.opts] ∧
    (buildManyEntry key e).trace.resolverPropertyCalls.map RPCall.methodOpts = [e.opts] := by
  simp [buildOneEntry, buildManyEntry, h]

/-- Witness for claim C7 at the concrete entry carrying hook options. -/
theorem c7_hooks_forwarded_witness :
    entryHooks.disableRead = false ∧
    ((buildOneEntry "relation" entryHooks).trace.resolverPropertyCalls.map RPCall.methodOpts
        = [entryHooks.opts] ∧
     (buildManyEntry "relation" entryHooks).trace.resolverPropertyCalls.map RPCall.methodOpts
        = [entryHooks.opts]) :=
  ⟨rfl, c7_hooks_forwarded "relation" entryHooks rfl⟩

/-- Claim C8: for every non-disabled entry, of the one map and of the many
map alike, the advanced options of the single ResolverProperty call carry
nullable true exactly when the entry is marked nullable, and are the empty
object otherwise. -/
theorem c8_nullable_advanced_opts (key : String) (e : RelationEntry) (h : e.disableRead = false) :
    (buildOneEntry key e).trace.resolverPropertyCalls.map RPCall.advancedOpts
        = [⟨if e.nullable then some true else none⟩] ∧
    (buildManyEntry key e).trace.resolverPropertyCalls.map RPCall.advancedOpts
        = [⟨if e.nullable then some true else none⟩] ∧
    advancedOptsOf entryNullable = ⟨some true⟩ ∧
    advancedOptsOf entryPlain = (⟨none⟩ : AdvancedOptions) := by
  refine ⟨?_, ?_, by decide, by decide⟩ <;>
    simp [buildOneEntry, buildManyEntry, h, advancedOptsOf]

/-- Witness for claim C8 at the concrete nullable entry. -/
theorem c8_nullable_advanced_opts_witness :
    entryNullable.disableRead = false ∧
    ((buildOneEntry "relation" entryNullable).trace.resolverPropertyCalls.map RPCall.advancedOpts
        = [⟨if entryNullable.nullable then some true else none⟩] ∧
     (buildManyEntry "relation" entryNullable).trace.resolverPropertyCalls.map RPCall.advancedOpts
        = [⟨if entryNullable.nullable then some true else none⟩] ∧
     advancedOptsOf entryNullable = ⟨some true⟩ ∧
     advancedOptsOf entryPlain = (⟨none⟩ : AdvancedOptions)) :=
  ⟨rfl, c8_nullable_advanced_opts "relation" entryNullable rfl⟩

/-- Claim C9: for every entry of the many map the exposed field name is the
pluralized lower-camel-cased form of the dtoName if given else the map key,
and the method name carries the query prefix with the pluralized
capitalized base: key relation yields field relations and method
queryRelations, dtoName Test yields field tests and method queryTests. -/
theorem c9_many_naming (key : String) (e : RelationEntry) :
    manyFieldName key e = pluralize (lowerFirst (e.dtoName.getD key)) ∧
    manyMethodName key e = "query" ++ pluralize (upperFirst (e.dtoName.getD key)) ∧
    manyFieldName "relation" entryPlain = "relations" ∧
    manyMethodName "relation" entryPlain = "queryRelations" ∧
    manyFieldName "relation" entryTest = "tests" ∧
    manyMethodName "relation" entryTest = "queryTests" :=
  ⟨rfl, rfl, by decide, by decide, by decide, by decide⟩

/-- Counterexample to claim C10: with map key relation and dtoName Test and
no relationName override, the underlying relation name is tests, not the
pluralized map key relations, and the many accessor queries the service
under the name tests. -/
theorem c10_counterexample :
    entryTest.relationName = none ∧
    manyRelationName "relation" entryTest ≠ pluralize "relation" ∧
    queryAccessor (manyMethodOf "relation" entryTest) svcC10 parentDto testQuery
        ≠ connectionFromArray (svcC10.queryRelations parentDto (pluralize "relation") testQuery) := by
  decide

/-- Claim C10 amended: for every entry of the many map without a
relationName override, the underlying relation name passed to the service
queryRelations call is the pluralized lower-camel-cased form of the dtoName
if given else the map key; in particular key relation without dtoName
yields relations, not the key itself. -/
theorem c10_default_relation_name {P R Q : Type} (key : String) (e : RelationEntry)
    (h : e.relationName = none) (svc : QueryServiceM P R Q) (p : P) (q : Q) :
    manyRelationName key e = pluralize (lowerFirst (e.dtoName.getD key)) ∧
    queryAccessor (manyMethodOf key e) svc p q
        = connectionFromArray
            (svc.queryRelations p (pluralize (lowerFirst (e.dtoName.getD key))) q) ∧
    manyRelationName "relation" entryPlain = "relations" := by
  have h1 : manyRelationName key e = pluralize (lowerFirst (e.dtoName.getD key)) := by
    simp [manyRelationName, h, manyFieldName, baseNameOf]
  have h2 : (manyMethodOf key e).relationName = pluralize (lowerFirst (e.dtoName.getD key)) := h1
  refine ⟨h1, ?_, by decide⟩
  unfold queryAccessor
  rw [h2]

/-- Witness for the amended claim C10 at the plain concrete entry. -/
theorem c10_default_relation_name_witness :
    entryPlain.relationName = none ∧
    (manyRelationName "relation" entryPlain
        = pluralize (lowerFirst (entryPlain.dtoName.getD "relation")) ∧
     queryAccessor (manyMethodOf "relation" entryPlain) svcC10 parentDto testQuery
        = connectionFromArray
            (svcC10.queryRelations parentDto
              (pluralize (lowerFirst (entryPlain.dtoName.getD "relation"))) testQuery) ∧
     manyRelationName "relation" entryPlain = "relations") :=
  ⟨rfl, c10_default_relation_name "relation" entryPlain rfl svcC10 parentDto testQuery⟩
